import Mathlib

/-!
Verification of the papersketch service (src/papersketch/) against its
specification, by a shallow embedding of the relevant Python code in Lean.

Embedding conventions:
* Python `float` timestamps (`time.time()`) are modelled as rationals `ℚ`.
* Binary payloads (`bytes`) are modelled as `List Nat`.
* The in-memory cache `_FILE_CACHE : Dict[str, Tuple[bytes, str, str, float]]`
  is modelled as a function `String → Option CacheEntry`; dict assignment and
  `pop` are pointwise functional updates.
* The nondeterministic pieces of the environment (the uuid4 token generated by
  `_cache_put_file`, the wall clock, the remote summarizer's response, the
  renderer's outcome, the `PAPERSKETCH_PUBLIC_BASE_URL` environment variable)
  are passed to the embedded functions as explicit arguments.
-/

namespace PaperSketch

/-! ## Ephemeral file cache (src/papersketch/tools.py, lines 31-68) -/

/-- `_FILE_TTL_SECONDS = 15 * 60` (tools.py line 36). -/
def _FILE_TTL_SECONDS : ℚ := 15 * 60

/-- One value of `_FILE_CACHE`: the tuple
`(file_bytes, filename, mime_type, expires_at_epoch)` (tools.py line 33). -/
structure CacheEntry where
  file_bytes : List Nat
  filename : String
  mime_type : String
  expires_at : ℚ
deriving DecidableEq

/-- The in-memory cache `_FILE_CACHE` (tools.py line 35), as a map from token
to entry. -/
def Cache : Type := String → Option CacheEntry

/-- The empty cache: `_FILE_CACHE = {}` at process start. -/
def emptyCache : Cache := fun _ => none

/-- `_cache_put_file` (tools.py lines 43-46).  The uuid4 hex token and the
current time `time.time()` are passed in explicitly; the code stores
`(file_bytes, filename, mime_type, time.time() + _FILE_TTL_SECONDS)` under the
fresh token and returns the token. -/
def cache_put_file (c : Cache) (token : String) (now : ℚ)
    (file_bytes : List Nat) (filename mime_type : String) : Cache :=
  fun k =>
    if k = token then
      some ⟨file_bytes, filename, mime_type, now + _FILE_TTL_SECONDS⟩
    else c k

/-- `cache_get_file` (tools.py lines 49-61).  Returns the triple
`(file_bytes, filename, mime_type)` if the token is present and not expired,
else `None`; an expired entry is popped as a side effect, so the function also
returns the resulting cache. -/
def cache_get_file (c : Cache) (token : String) (now : ℚ) :
    Option (List Nat × String × String) × Cache :=
  match c token with
  | none => (none, c)
  | some item =>
      if now > item.expires_at then
        (none, fun k => if k = token then none else c k)
      else
        (some (item.file_bytes, item.filename, item.mime_type), c)

/-- `_cache_cleanup_expired` (tools.py lines 64-68): pops every key whose
stored expiry satisfies `exp < now`. -/
def cache_cleanup_expired (c : Cache) (now : ℚ) : Cache :=
  fun k =>
    match c k with
    | none => none
    | some item => if item.expires_at < now then none else some item

/-! ## Download endpoint (src/papersketch/server.py, lines 16-37) -/

/-- The body of a starlette response: raw bytes (`Response(content=...)`) or
text (`PlainTextResponse`). -/
inductive RespBody where
  | binary (b : List Nat)
  | text (s : String)
deriving DecidableEq

/-- An HTTP response as built by `download_file`: status, body, the
`media_type` (which starlette emits as `Content-Type`; `PlainTextResponse`
uses `text/plain`), and the explicitly supplied extra headers. -/
structure HttpResponse where
  status : Nat
  body : RespBody
  contentType : String
  headers : List (String × String)
deriving DecidableEq

/-- `download_file` (server.py lines 16-30).  Resolves the path token through
`cache_get_file`; on a miss answers 404 with a plain-text body, on a hit
answers 200 with the stored bytes, mime type, a `Content-Disposition`
attachment header carrying the stored filename, and `Cache-Control: no-store`.
Returns the response together with the cache left behind by the lookup. -/
def download_file (token : String) (c : Cache) (now : ℚ) :
    HttpResponse × Cache :=
  let r := cache_get_file c token now
  match r.1 with
  | none =>
      (⟨404, .text "File not found or expired", "text/plain", []⟩, r.2)
  | some (file_bytes, filename, mime_type) =>
      (⟨200, .binary file_bytes, mime_type,
        [("Content-Disposition", "attachment; filename=\"" ++ filename ++ "\""),
         ("Cache-Control", "no-store")]⟩, r.2)

/-- The two registered download routes (server.py lines 34 and 37):
`/papersketch/file/{token}` and `/papersketch/pdf/{token}`. -/
inductive DownloadRoute where
  | file
  | pdf
deriving DecidableEq

/-- Route dispatch for the download routes: server.py appends both `Route`s
with the same endpoint function `download_file`, so either route invokes
`download_file` on the path token against the same module-level cache. -/
def handle_download (r : DownloadRoute) (token : String) (c : Cache)
    (now : ℚ) : HttpResponse × Cache :=
  match r with
  | .file => download_file token c now
  | .pdf => download_file token c now

/-! ## Tool orchestrator (src/papersketch/tools.py, lines 158-250) -/

/-- A JSON-ish value as found in the tool arguments dict and in the remote
API's response dict. -/
inductive JVal where
  | str (s : String)
  | num (n : Int)
  | boolean (b : Bool)
  | null
deriving DecidableEq

/-- A Python dict with string keys, as an association list (keys unique in
practice; lookup takes the first binding). -/
def JDict : Type := List (String × JVal)

/-- `d.get(k)`: `None` when the key is absent. -/
def jget (d : JDict) (k : String) : Option JVal :=
  (d.find? (fun p => p.1 == k)).map (·.2)

/-- Python truthiness of a `JVal` (`""`, `0`, `False`, `None` are falsy). -/
def jtruthy : JVal → Bool
  | .str s => s ≠ ""
  | .num n => n ≠ 0
  | .boolean b => b
  | .null => false

/-- Python `a or b` on a `dict.get` result: keeps `a`'s value when it is
present and truthy, otherwise evaluates to `b`. -/
def pyOr (a : Option JVal) (b : JVal) : JVal :=
  match a with
  | some v => if jtruthy v then v else b
  | none => b

/-- Summary extraction (tools.py lines 192-197):
`data.get("paperSketch") or data.get("summary") or data.get("paper_sketch") or ""`. -/
def extract_raw_summary (data : JDict) : JVal :=
  pyOr (jget data "paperSketch")
    (pyOr (jget data "summary")
      (pyOr (jget data "paper_sketch") (.str "")))

/-- `isinstance(v, str)`. -/
def isStr : JVal → Bool
  | .str _ => true
  | _ => false

/-- The failure modes of `PaperSketchClient.summarize` (client.py lines
17-28): `httpx.ReadTimeout` is re-raised as a `RuntimeError`, and
`resp.raise_for_status()` raises `httpx.HTTPStatusError` on a non-2xx
status; both propagate out of `summarize` as exceptions. -/
inductive SummarizeFault where
  | timeoutRuntimeError
  | httpStatusError (status : Nat)
deriving DecidableEq

/-- An exception escaping `_handle_call_tool` uncaught. -/
inductive ToolFault where
  | summarizerException (e : SummarizeFault)
deriving DecidableEq

/-- The `structuredContent` dict built at tools.py lines 229-239. -/
structure StructuredContent where
  summary : JVal
  version : Option JVal
  modelInfo : Option JVal
  imageUrl : String
  imageFilename : String
  pdfUrl : String
  pdfFilename : String
deriving DecidableEq

/-- A `CallToolResult` as produced by `_handle_call_tool`: the text content,
the `isError` flag (defaults to false when not set), and the optional
`structuredContent`. -/
structure CallToolResult where
  text : String
  isError : Bool
  structuredContent : Option StructuredContent
deriving DecidableEq

/-- The observable outcome of one `_handle_call_tool` invocation: either a
returned `CallToolResult` or an escaped exception, the cache state left
behind, and whether `PaperSketchClient.summarize` was invoked. -/
structure HandlerOutcome where
  result : Except ToolFault CallToolResult
  cache : Cache
  summarizerInvoked : Bool

/-- `TOOL_NAME` (tools.py line 16). -/
def TOOL_NAME : String := "summarize_paper"

/-- Python `str.rstrip("/")`: drop trailing `/` characters. -/
def rstripSlashes (s : String) : String :=
  ⟨(s.data.reverse.dropWhile (fun c => c == '/')).reverse⟩

/-- `_handle_call_tool` (tools.py lines 158-250), embedded with its
environment made explicit: `name`/`arguments` come from the request,
`summarizeResp` is the outcome of `self._client.summarize(url, lang)`
(`Except.error` when that call raises), `renderResult` is the outcome of
`markdown_to_png_bytes` (`Except.error` when it raises), `token` is the
uuid4 hex drawn inside `_cache_put_file`, `now` is the wall clock, `c` is
the module cache `_FILE_CACHE`, and `base` is
`os.environ.get("PAPERSKETCH_PUBLIC_BASE_URL", "")`.

Control flow follows the source exactly: unknown tool → error result;
missing/non-string (or falsy) `url` → error result before anything else;
then `_cache_cleanup_expired()`; then the summarize call, whose exception —
there is no try/except around it — escapes the handler; then summary
extraction; then the render/publish block wrapped in `try/except Exception`;
finally the structured success result. -/
def handle_call_tool (name : String) (arguments : Option JDict)
    (summarizeResp : Except SummarizeFault JDict)
    (renderResult : Except Unit (List Nat))
    (token : String) (now : ℚ) (c : Cache) (base : String) :
    HandlerOutcome :=
  if name ≠ TOOL_NAME then
    { result := .ok ⟨"Unknown tool: " ++ name, true, none⟩,
      cache := c, summarizerInvoked := false }
  else
    let args := arguments.getD []
    let url := jget args "url"
    if (match url with
        | none => true
        | some v => !jtruthy v || !isStr v) then
      { result := .ok ⟨"Missing required argument: url", true, none⟩,
        cache := c, summarizerInvoked := false }
    else
      let c1 := cache_cleanup_expired c now
      match summarizeResp with
      | .error e =>
          { result := .error (.summarizerException e),
            cache := c1, summarizerInvoked := true }
      | .ok data =>
          let raw_summary := extract_raw_summary data
          let image_filename := "paper_sketch.png"
          let (image_url, c2) :=
            if jtruthy raw_summary then
              match renderResult with
              | .ok png_bytes =>
                  let c2 := cache_put_file c1 token now png_bytes
                    image_filename "image/png"
                  let b := rstripSlashes base
                  if b ≠ "" then
                    (b ++ "/papersketch/file/" ++ token, c2)
                  else
                    ("/papersketch/file/" ++ token, c2)
              | .error _ => ("", c1)
            else ("", c1)
          { result := .ok
              ⟨"PaperSketch generated.", false,
               some ⟨raw_summary, jget data "version", jget data "modelInfo",
                     image_url, image_filename, image_url, image_filename⟩⟩,
            cache := c2, summarizerInvoked := true }

/-! ## Header extraction (src/papersketch/export_image.py, lines 11-150)

Python strings are modelled as `List Char`.  `str.strip()` and the regex
class `\s` (with `re.UNICODE`) use CPython's Unicode whitespace set, and
`str.splitlines()` splits on CPython's full set of line boundaries, with
`\r\n` counting as a single boundary. -/

/-- The two-entry cache used by the C5 witness: one entry inserted at time 0
(expired by time 1000) and one inserted at time 500 (still live then). -/
def sweepWitnessCache : Cache :=
  cache_put_file (cache_put_file emptyCache "dead" 0 [1] "a.png" "image/png")
    "live" 500 [2] "b.png" "image/png"

/-- The one-entry cache used by the C7 witness. -/
def downloadWitnessCache : Cache :=
  cache_put_file emptyCache "tok" 0 [3, 4] "paper_sketch.png" "image/png"

/-! ## The markdown shape of the header-extraction property -/

/-- C1: for every token, a `get` performed before the entry's TTL (15 minutes
= `_FILE_TTL_SECONDS` from insertion) elapses returns exactly the bytes,
filename and MIME type that `put` stored under that token; a `get` performed
after the TTL elapses returns nothing even if the entry was never explicitly
removed; and a `get` on a token that was never inserted returns nothing and
has no side effect on any entry (the cache is returned unchanged). -/
theorem cache_ttl_and_miss_semantics
    (c : Cache) (token : String) (now t : ℚ)
    (b : List Nat) (fn mt : String) :
    (t < now + _FILE_TTL_SECONDS →
      (cache_get_file (cache_put_file c token now b fn mt) token t).1
        = some (b, fn, mt)) ∧
    (t > now + _FILE_TTL_SECONDS →
      (cache_get_file (cache_put_file c token now b fn mt) token t).1
        = none) ∧
    (c token = none → cache_get_file c token t = (none, c)) := by
  refine ⟨?_, ?_, ?_⟩
  · intro hlt
    have hne : ¬ t > now + _FILE_TTL_SECONDS := not_lt.mpr (le_of_lt hlt)
    simp [cache_get_file, cache_put_file, hne]
  · intro hgt
    simp [cache_get_file, cache_put_file, hgt]
  · intro hnone
    simp [cache_get_file, hnone]

/-- Witness for C1 at a concrete cache, token and pair of times. -/
theorem cache_ttl_and_miss_semantics_witness :
    ((1 : ℚ) < 0 + _FILE_TTL_SECONDS ∧
      (cache_get_file (cache_put_file emptyCache "tok" 0 [7, 9] "paper_sketch.png" "image/png")
        "tok" 1).1 = some ([7, 9], "paper_sketch.png", "image/png")) ∧
    ((901 : ℚ) > 0 + _FILE_TTL_SECONDS ∧
      (cache_get_file (cache_put_file emptyCache "tok" 0 [7, 9] "paper_sketch.png" "image/png")
        "tok" 901).1 = none) ∧
    (emptyCache "tok" = none ∧
      cache_get_file emptyCache "tok" 901 = (none, emptyCache)) := by
  have h1 : (1 : ℚ) < 0 + _FILE_TTL_SECONDS := by norm_num [_FILE_TTL_SECONDS]
  have h2 : (901 : ℚ) > 0 + _FILE_TTL_SECONDS := by norm_num [_FILE_TTL_SECONDS]
  have h3 : emptyCache "tok" = none := rfl
  exact ⟨⟨h1, (cache_ttl_and_miss_semantics emptyCache "tok" 0 1 [7, 9]
              "paper_sketch.png" "image/png").1 h1⟩,
         ⟨h2, (cache_ttl_and_miss_semantics emptyCache "tok" 0 901 [7, 9]
              "paper_sketch.png" "image/png").2.1 h2⟩,
         ⟨h3, (cache_ttl_and_miss_semantics emptyCache "tok" 0 901 [7, 9]
              "paper_sketch.png" "image/png").2.2 h3⟩⟩

/-- C5: for every cache state and current time, `sweep`
(`_cache_cleanup_expired`) removes exactly the entries whose expiry is
strictly less than the current time: an expired entry is gone from internal
storage, and a still-live entry is unchanged and remains retrievable through
`cache_get_file`. -/
theorem sweep_removes_exactly_expired
    (c : Cache) (now : ℚ) (k : String) :
    (∀ e, c k = some e → e.expires_at < now →
      cache_cleanup_expired c now k = none) ∧
    (∀ e, c k = some e → ¬ e.expires_at < now →
      cache_cleanup_expired c now k = some e ∧
      (cache_get_file (cache_cleanup_expired c now) k now).1
        = some (e.file_bytes, e.filename, e.mime_type)) ∧
    (c k = none → cache_cleanup_expired c now k = none) := by
  refine ⟨?_, ?_, ?_⟩
  · intro e he hexp
    simp [cache_cleanup_expired, he, hexp]
  · intro e he hlive
    have hkeep : cache_cleanup_expired c now k = some e := by
      simp [cache_cleanup_expired, he, hlive]
    refine ⟨hkeep, ?_⟩
    have hnot : ¬ now > e.expires_at := not_lt.mpr (not_lt.mp hlive)
    simp [cache_get_file, hkeep, hnot]
  · intro hnone
    simp [cache_cleanup_expired, hnone]

/-- Witness for C5: a cache holding one expired and one live entry. -/
theorem sweep_removes_exactly_expired_witness :
    sweepWitnessCache "dead"
        = some ⟨[1], "a.png", "image/png", 0 + _FILE_TTL_SECONDS⟩ ∧
    (0 + _FILE_TTL_SECONDS : ℚ) < 1000 ∧
    cache_cleanup_expired sweepWitnessCache 1000 "dead" = none ∧
    sweepWitnessCache "live"
        = some ⟨[2], "b.png", "image/png", 500 + _FILE_TTL_SECONDS⟩ ∧
    ¬ (500 + _FILE_TTL_SECONDS : ℚ) < 1000 ∧
    cache_cleanup_expired sweepWitnessCache 1000 "live"
        = some ⟨[2], "b.png", "image/png", 500 + _FILE_TTL_SECONDS⟩ ∧
    (cache_get_file (cache_cleanup_expired sweepWitnessCache 1000) "live" 1000).1
        = some ([2], "b.png", "image/png") := by
  have hdead : sweepWitnessCache "dead"
      = some ⟨[1], "a.png", "image/png", 0 + _FILE_TTL_SECONDS⟩ := by
    simp [sweepWitnessCache, cache_put_file]
  have hlive : sweepWitnessCache "live"
      = some ⟨[2], "b.png", "image/png", 500 + _FILE_TTL_SECONDS⟩ := by
    simp [sweepWitnessCache, cache_put_file]
  have h1 : (0 + _FILE_TTL_SECONDS : ℚ) < 1000 := by norm_num [_FILE_TTL_SECONDS]
  have h2 : ¬ (500 + _FILE_TTL_SECONDS : ℚ) < 1000 := by norm_num [_FILE_TTL_SECONDS]
  have hgone := (sweep_removes_exactly_expired sweepWitnessCache 1000 "dead").1 _ hdead h1
  have hkept := (sweep_removes_exactly_expired sweepWitnessCache 1000 "live").2.1 _ hlive h2
  exact ⟨hdead, h1, hgone, hlive, h2, hkept.1, hkept.2⟩

/-- C7: for every download request, a token resolving to a live cache entry
yields status 200, body equal to the stored payload, `Content-Type` equal to
the stored MIME type, a `Content-Disposition` attachment header carrying the
stored filename and `Cache-Control: no-store`; an absent or expired token
yields status 404 with a plain-text body. -/
theorem download_response_correct
    (c : Cache) (token : String) (now : ℚ) :
    (∀ e, c token = some e → ¬ now > e.expires_at →
      (download_file token c now).1 =
        ⟨200, .binary e.file_bytes, e.mime_type,
         [("Content-Disposition",
             "attachment; filename=\"" ++ e.filename ++ "\""),
          ("Cache-Control", "no-store")]⟩) ∧
    ((c token = none ∨ ∃ e, c token = some e ∧ now > e.expires_at) →
      (download_file token c now).1 =
        ⟨404, .text "File not found or expired", "text/plain", []⟩) := by
  constructor
  · intro e he hlive
    simp [download_file, cache_get_file, he, hlive]
  · rintro (hnone | ⟨e, he, hexp⟩)
    · simp [download_file, cache_get_file, hnone]
    · simp [download_file, cache_get_file, he, hexp]

/-- Witness for C7: one live hit and one miss on concrete caches. -/
theorem download_response_correct_witness :
    downloadWitnessCache "tok"
        = some ⟨[3, 4], "paper_sketch.png", "image/png", 0 + _FILE_TTL_SECONDS⟩ ∧
    ¬ (100 : ℚ) > 0 + _FILE_TTL_SECONDS ∧
    (download_file "tok" downloadWitnessCache 100).1 =
      ⟨200, .binary [3, 4], "image/png",
       [("Content-Disposition",
           "attachment; filename=\"" ++ "paper_sketch.png" ++ "\""),
        ("Cache-Control", "no-store")]⟩ ∧
    emptyCache "tok" = none ∧
    (download_file "tok" emptyCache 100).1 =
      ⟨404, .text "File not found or expired", "text/plain", []⟩ := by
  have he : downloadWitnessCache "tok"
      = some ⟨[3, 4], "paper_sketch.png", "image/png", 0 + _FILE_TTL_SECONDS⟩ := by
    simp [downloadWitnessCache, cache_put_file]
  have hlive : ¬ (100 : ℚ) > 0 + _FILE_TTL_SECONDS := by norm_num [_FILE_TTL_SECONDS]
  refine ⟨he, hlive, ?_, rfl, ?_⟩
  · exact (download_response_correct downloadWitnessCache "tok" 100).1 _ he hlive
  · exact (download_response_correct emptyCache "tok" 100).2 (Or.inl rfl)

/-- C9: for every token and cache state (and current time), a GET on
`/papersketch/file/{token}` and a GET on `/papersketch/pdf/{token}` produce
identical responses — same status, bytes and headers, and the same resulting
cache — because both routes are registered with the same handler
`download_file` reading the same cache. -/
theorem download_alias_equivalence (token : String) (c : Cache) (now : ℚ) :
    handle_download .file token c now = handle_download .pdf token c now := rfl

/-- C2 (failing-input evaluation): `_handle_call_tool` has no try/except
around `self._client.summarize(url, lang)` (tools.py line 189), so when the
summarizer call fails — here the remote answers HTTP 500, making
`resp.raise_for_status()` raise `httpx.HTTPStatusError` — the exception
escapes the tool handler instead of being returned as a structured
tool-level error result, contradicting the claim. -/
theorem summarize_failure_escapes_tool_boundary :
    (handle_call_tool TOOL_NAME
        (some [("url", .str "https://example.com/paper.pdf")])
        (.error (.httpStatusError 500)) (.ok [1]) "tok" 0 emptyCache "").result
      = .error (.summarizerException (.httpStatusError 500)) ∧
    (handle_call_tool TOOL_NAME
        (some [("url", .str "https://example.com/paper.pdf")])
        (.error (.httpStatusError 500)) (.ok [1]) "tok" 0 emptyCache "").summarizerInvoked
      = true ∧
    (handle_call_tool TOOL_NAME
        (some [("url", .str "https://example.com/paper.pdf")])
        (.error .timeoutRuntimeError) (.ok [1]) "tok" 0 emptyCache "").result
      = .error (.summarizerException .timeoutRuntimeError) := ⟨rfl, rfl, rfl⟩

/-- C3: for every tool invocation whose arguments lack a `url` value or whose
`url` value is not a string, `_handle_call_tool` returns the
`Missing required argument: url` result with `isError` set — it does not
raise — and `PaperSketchClient.summarize` is never invoked; the cache is
also left untouched. -/
theorem missing_url_rejected_without_summarizer
    (arguments : Option JDict)
    (summarizeResp : Except SummarizeFault JDict)
    (renderResult : Except Unit (List Nat))
    (token : String) (now : ℚ) (c : Cache) (base : String)
    (h : jget (arguments.getD []) "url" = none ∨
         ∀ s, jget (arguments.getD []) "url" ≠ some (.str s)) :
    (handle_call_tool TOOL_NAME arguments summarizeResp renderResult
        token now c base).result
      = .ok ⟨"Missing required argument: url", true, none⟩ ∧
    (handle_call_tool TOOL_NAME arguments summarizeResp renderResult
        token now c base).summarizerInvoked = false ∧
    (handle_call_tool TOOL_NAME arguments summarizeResp renderResult
        token now c base).cache = c := by
  have hcond : (match jget (arguments.getD []) "url" with
      | none => true
      | some v => !jtruthy v || !isStr v) = true := by
    rcases h with hnone | hnostr
    · rw [hnone]
    · cases hu : jget (arguments.getD []) "url" with
      | none => rfl
      | some v =>
          cases v with
          | str s => exact absurd hu (hnostr s)
          | num n => simp [isStr]
          | boolean b => simp [isStr]
          | null => simp [isStr]
  refine ⟨?_, ?_, ?_⟩ <;> simp [handle_call_tool, TOOL_NAME, hcond]

/-- Witness for C3: a call with no arguments at all, and a call whose `url`
is a number. -/
theorem missing_url_rejected_without_summarizer_witness :
    (jget ((none : Option JDict).getD []) "url" = none ∧
      (handle_call_tool TOOL_NAME none (.ok []) (.ok []) "tok" 0 emptyCache "").result
        = .ok ⟨"Missing required argument: url", true, none⟩ ∧
      (handle_call_tool TOOL_NAME none (.ok []) (.ok []) "tok" 0 emptyCache "").summarizerInvoked
        = false) ∧
    ((handle_call_tool TOOL_NAME (some [("url", .num 5)]) (.ok []) (.ok [])
        "tok" 0 emptyCache "").result
        = .ok ⟨"Missing required argument: url", true, none⟩ ∧
      (handle_call_tool TOOL_NAME (some [("url", .num 5)]) (.ok []) (.ok [])
        "tok" 0 emptyCache "").summarizerInvoked = false) := by
  have h1 := missing_url_rejected_without_summarizer none (.ok []) (.ok [])
    "tok" 0 emptyCache "" (Or.inl rfl)
  have h2 := missing_url_rejected_without_summarizer (some [("url", .num 5)])
    (.ok []) (.ok []) "tok" 0 emptyCache ""
    (Or.inr (fun s hs => by simp [jget] at hs))
  exact ⟨⟨rfl, h1.1, h1.2.1⟩, ⟨h2.1, h2.2.1⟩⟩

/-- C4: for every tool invocation with a valid `url` whose summarize call
succeeds with a non-empty (truthy) summary, if the renderer raises then the
handler still returns a successful (non-error) structured result carrying the
summary, with both artifact URLs equal to the empty string: the render
failure never aborts the tool response. -/
theorem render_failure_swallowed
    (arguments : Option JDict) (data : JDict)
    (token : String) (now : ℚ) (c : Cache) (base : String)
    (s : String) (hs : s ≠ "")
    (hurl : jget (arguments.getD []) "url" = some (.str s))
    (hsum : jtruthy (extract_raw_summary data) = true) :
    (handle_call_tool TOOL_NAME arguments (.ok data) (.error ())
        token now c base).result
      = .ok ⟨"PaperSketch generated.", false,
          some ⟨extract_raw_summary data, jget data "version",
                jget data "modelInfo", "", "paper_sketch.png",
                "", "paper_sketch.png"⟩⟩ := by
  have hcond : (match jget (arguments.getD []) "url" with
      | none => true
      | some v => !jtruthy v || !isStr v) = false := by
    rw [hurl]
    simp [jtruthy, isStr, hs]
  simp [handle_call_tool, TOOL_NAME, hcond, hsum]

/-- Witness for C4 at a concrete request and summarizer response. -/
theorem render_failure_swallowed_witness :
    "https://example.com/paper.pdf" ≠ "" ∧
    jget ((some [("url", JVal.str "https://example.com/paper.pdf")] :
        Option JDict).getD []) "url"
      = some (.str "https://example.com/paper.pdf") ∧
    jtruthy (extract_raw_summary [("paperSketch", .str "# Title")]) = true ∧
    (handle_call_tool TOOL_NAME
        (some [("url", .str "https://example.com/paper.pdf")])
        (.ok [("paperSketch", .str "# Title")]) (.error ())
        "tok" 0 emptyCache "https://host.example").result
      = .ok ⟨"PaperSketch generated.", false,
          some ⟨extract_raw_summary [("paperSketch", .str "# Title")],
                jget [("paperSketch", .str "# Title")] "version",
                jget [("paperSketch", .str "# Title")] "modelInfo",
                "", "paper_sketch.png", "", "paper_sketch.png"⟩⟩ := by
  refine ⟨by decide, rfl, rfl, ?_⟩
  exact render_failure_swallowed
    (some [("url", .str "https://example.com/paper.pdf")])
    [("paperSketch", .str "# Title")] "tok" 0 emptyCache "https://host.example"
    "https://example.com/paper.pdf" (by decide) rfl rfl

/-- C6: for every remote response dict, the orchestrator extracts the summary
by trying `paperSketch`, then `summary`, then `paper_sketch` in that priority
order (a key yields a value when the lookup finds a Python-truthy value, as
the source's `or` chain does), and the extracted summary is the empty string
when none of the candidate keys yields a value. -/
theorem summary_key_priority (data : JDict) :
    (∀ v, jget data "paperSketch" = some v → jtruthy v = true →
      extract_raw_summary data = v) ∧
    ((∀ v, jget data "paperSketch" = some v → jtruthy v = false) →
      ∀ v, jget data "summary" = some v → jtruthy v = true →
        extract_raw_summary data = v) ∧
    ((∀ v, jget data "paperSketch" = some v → jtruthy v = false) →
      (∀ v, jget data "summary" = some v → jtruthy v = false) →
      ∀ v, jget data "paper_sketch" = some v → jtruthy v = true →
        extract_raw_summary data = v) ∧
    ((∀ v, jget data "paperSketch" = some v → jtruthy v = false) →
      (∀ v, jget data "summary" = some v → jtruthy v = false) →
      (∀ v, jget data "paper_sketch" = some v → jtruthy v = false) →
      extract_raw_summary data = .str "") := by
  have hnt : ∀ (o : Option JVal) (w : JVal),
      (∀ v, o = some v → jtruthy v = false) → pyOr o w = w := by
    intro o w ho
    cases o with
    | none => rfl
    | some v => simp [pyOr, ho v rfl]
  refine ⟨?_, ?_, ?_, ?_⟩
  · intro v hv htr
    simp [extract_raw_summary, hv, pyOr, htr]
  · intro hp v hv htr
    rw [extract_raw_summary, hnt _ _ hp]
    simp [hv, pyOr, htr]
  · intro hp hsm v hv htr
    rw [extract_raw_summary, hnt _ _ hp, hnt _ _ hsm]
    simp [hv, pyOr, htr]
  · intro hp hsm hps
    rw [extract_raw_summary, hnt _ _ hp, hnt _ _ hsm, hnt _ _ hps]

/-- Witness for C6: a dict whose `paperSketch` is empty falls through to
`summary`, and a dict with none of the keys extracts the empty string. -/
theorem summary_key_priority_witness :
    jget [("paperSketch", JVal.str ""), ("summary", JVal.str "S")] "summary"
      = some (.str "S") ∧
    jtruthy (JVal.str "S") = true ∧
    extract_raw_summary [("paperSketch", .str ""), ("summary", .str "S")]
      = .str "S" ∧
    extract_raw_summary [("version", .str "1")] = .str "" := by
  refine ⟨rfl, rfl, ?_, ?_⟩
  · exact (summary_key_priority
      [("paperSketch", .str ""), ("summary", .str "S")]).2.1
      (fun v hv => by simp [jget] at hv; simp [← hv, jtruthy])
      (.str "S") rfl rfl
  · exact (summary_key_priority [("version", .str "1")]).2.2.2
      (fun v hv => by simp [jget] at hv)
      (fun v hv => by simp [jget] at hv)
      (fun v hv => by simp [jget] at hv)

/-! ### Auxiliary list lemmas for the header-extraction proof -/

end PaperSketch
